import Mathlib

/-!
Shallow embedding of the record-accumulation logic of the google-maps-scraper
repository: deduplication checks, target-cap enforcement in the offer loops,
name/phone/address validation, and the export-time uniqueness pass.

Python strings are embedded as `List Char`; the helpers `pyStrip`, `pyLower`,
`pyGet` model `str.strip()`, `str.lower()` and `dict.get(key, '')`.  A record
(`ShopInfo`) models the shop dictionaries; a field that may be absent from the
dictionary is an `Option`.
-/

namespace GMScraper

/-- A Python string, embedded as its list of characters. -/
abbrev Str := List Char

/-- Python `str.strip()`: drop leading and trailing whitespace. -/
def pyStrip (s : Str) : Str :=
  ((s.dropWhile Char.isWhitespace).reverse.dropWhile Char.isWhitespace).reverse

/-- Python `str.lower()`: lower-case every character. -/
def pyLower (s : Str) : Str := s.map Char.toLower

/-- Python `d.get(key, '')` on an optional string field: the empty string when
the key is missing.  A falsy value is exactly the empty list. -/
def pyGet (o : Option Str) : Str := o.getD []

/-- Python `pat in s` on strings: `pat` occurs contiguously in `s`. -/
def pyIn (pat : Str) : Str → Bool
  | [] => pat.isEmpty
  | c :: rest => pat.isPrefixOf (c :: rest) || pyIn pat rest

/-- One shop dictionary as passed between extraction, dedup and storage.
Fields that a given script may leave out are `Option`s. -/
structure ShopInfo where
  name : Option Str := none
  google_maps_url : Option Str := none
  address : Option Str := none
  phone : Option Str := none
  search_location : Option Str := none
deriving DecidableEq

namespace Precision

/-- `is_new_shop` of google_maps_scraper_kaohsiung_precision.py (lines
1349-1369): reject a falsy record or a falsy name; otherwise reject when an
accumulated record has the same stripped-lowercased name, or when both records
have a non-empty stripped URL and the URLs are equal. -/
def is_new_shop (shops_data : List ShopInfo) (shop_info : Option ShopInfo) : Bool :=
  match shop_info with
  | none => false
  | some info =>
    if pyGet info.name = [] then false
    else
      let shop_name := pyLower (pyStrip (pyGet info.name))
      let shop_url := pyStrip (pyGet info.google_maps_url)
      shops_data.all fun existing_shop =>
        let existing_name := pyLower (pyStrip (pyGet existing_shop.name))
        let existing_url := pyStrip (pyGet existing_shop.google_maps_url)
        if existing_name = shop_name then false
        else if shop_url ≠ [] ∧ existing_url ≠ [] ∧ shop_url = existing_url then false
        else true

/-- `is_kaohsiung_address` (lines 329-347): a missing or sentinel address
passes; an address containing 高雄 passes; a short address naming no other
city passes; everything else is filtered. -/
def is_kaohsiung_address (address : Str) : Bool :=
  if address = [] ∨ address = "地址未提供".toList ∨ address = "地址獲取失敗".toList then true
  else if pyIn ("高雄".toList) address then true
  else if address.length < 15 ∧
      ¬ (["台北", "台中", "台南", "新北", "桃園", "嘉義", "屏東"].any
          fun city => pyIn city.toList address) then true
  else false

/-- The character set of the loose phone check (line 888). -/
def phone_chars : List Char := "0123456789-() ".toList

/-- `is_phone_like` (lines 871-892): require length at least 8, between 8 and
11 digits, and either a leading 0 in the digits or only phone characters. -/
def is_phone_like (phone_text : Str) : Bool :=
  if phone_text = [] ∨ phone_text.length < 8 then false
  else
    let digits_only := phone_text.filter Char.isDigit
    if digits_only.length < 8 ∨ digits_only.length > 11 then false
    else if digits_only.head? = some '0' then true
    else if phone_text.all fun c => phone_chars.contains c then true
    else false

/-- The per-candidate acceptance decision of `extract_phone_detailed` (lines
795-814): a stripped non-empty text of length at least 8 containing a digit is
returned when `is_phone_like` passes; the strict `is_valid_phone` check (passed
here as the parameter `is_valid`) is consulted but the candidate is returned
whether it succeeds or fails. -/
def phone_candidate_decision (is_valid : Str → Bool) (raw : Str) : Option Str :=
  let phone_text := pyStrip raw
  if phone_text = [] then none
  else if phone_text.length ≥ 8 ∧ phone_text.any Char.isDigit then
    if is_phone_like phone_text then
      if is_valid phone_text then some phone_text else some phone_text
    else none
  else none

/-- One round of `extract_current_shops` (lines 1236-1263) over the extraction
results of the candidate links: an extracted record that passes `is_new_shop`
is appended, and the round stops as soon as the target is reached. -/
def extract_round (target : Nat) (shops_data : List ShopInfo) :
    List (Option ShopInfo) → List ShopInfo
  | [] => shops_data
  | info? :: rest =>
    match info? with
    | some info =>
      if is_new_shop shops_data (some info) then
        if (shops_data ++ [info]).length ≥ target then shops_data ++ [info]
        else extract_round target (shops_data ++ [info]) rest
      else extract_round target shops_data rest
    | none => extract_round target shops_data rest

/-- The export key of `save_to_excel` (line 1387):
`(shop['name'], shop.get('google_maps_url', ''))`. -/
def save_key (shop : ShopInfo) : Str × Str := (pyGet shop.name, pyGet shop.google_maps_url)

/-- The uniqueness pass of `save_to_excel` (lines 1383-1391): keep the first
record for each key, in order, tracking the keys already seen. -/
def unique_pass : List ShopInfo → List (Str × Str) → List ShopInfo
  | [], _ => []
  | shop :: rest, seen =>
    if save_key shop ∈ seen then unique_pass rest seen
    else shop :: unique_pass rest (save_key shop :: seen)

/-- The list handed to the Excel/CSV writer by `save_to_excel`. -/
def unique_shops (shops_data : List ShopInfo) : List ShopInfo := unique_pass shops_data []

/-- The accumulated lists reachable through the admission gate: starting empty,
each record was appended only after `is_new_shop` accepted it. -/
inductive Admissible : List ShopInfo → Prop
  | nil : Admissible []
  | snoc {l : List ShopInfo} {r : ShopInfo} :
      Admissible l → is_new_shop l (some r) = true → Admissible (l ++ [r])

end Precision

namespace Turbo

/-- `is_new_shop_fast` of google_maps_scraper_turbo_firefox.py (lines 815-832):
as the precision check, with the name and URL comparisons in one condition. -/
def is_new_shop_fast (shops_data : List ShopInfo) (shop_info : Option ShopInfo) : Bool :=
  match shop_info with
  | none => false
  | some info =>
    if pyGet info.name = [] then false
    else
      let shop_name := pyLower (pyStrip (pyGet info.name))
      let shop_url := pyStrip (pyGet info.google_maps_url)
      shops_data.all fun existing_shop =>
        let existing_name := pyLower (pyStrip (pyGet existing_shop.name))
        let existing_url := pyStrip (pyGet existing_shop.google_maps_url)
        if existing_name = shop_name ∨
            (shop_url ≠ [] ∧ existing_url ≠ [] ∧ shop_url = existing_url) then false
        else true

end Turbo

namespace Fast

/-- `add_shop_data` of fast_kaohsiung_scraper.py (lines 106-115): reject when
an accumulated record has the same lowercased-stripped name, else append.
Records of this scraper are always built with a `name` key. -/
def add_shop_data (shops_data : List ShopInfo) (shop_info : ShopInfo) :
    List ShopInfo × Bool :=
  if shops_data.any (fun existing =>
      decide (pyStrip (pyLower (pyGet existing.name)) =
        pyStrip (pyLower (pyGet shop_info.name)))) then
    (shops_data, false)
  else (shops_data ++ [shop_info], true)

/-- The offer loop of `run_fast_scraping` (lines 263-266 and 274-278): for each
candidate, break once the target is reached, else call `add_shop_data`. -/
def run_offer_loop (target : Nat) (shops_data : List ShopInfo) :
    List ShopInfo → List ShopInfo
  | [] => shops_data
  | shop :: rest =>
    if shops_data.length ≥ target then shops_data
    else run_offer_loop target (add_shop_data shops_data shop).1 rest

end Fast

namespace Detailed

/-- Python `ch.isalnum()` over the alphabets this code base exercises: ASCII
letters and digits, plus CJK Unified Ideographs. -/
def pyIsAlnum (c : Char) : Bool :=
  c.isAlphanum ∨ (0x4E00 ≤ c.toNat ∧ c.toNat ≤ 0x9FFF)

/-- `is_new_shop` of google_maps_scraper_detailed.py (lines 962-1009): the
per-anchor variant.  The current anchor's records are checked for name or URL
duplicates; records of other anchors are checked only for URL duplicates and
for equality of the alphanumeric-only names when that cleaned name is longer
than 3 characters. -/
def is_new_shop (shops_data current_location_shops : List ShopInfo)
    (current_location : Str) (shop_info : Option ShopInfo) : Bool :=
  match shop_info with
  | none => false
  | some info =>
    if pyGet info.name = [] then false
    else
      let shop_name := pyLower (pyStrip (pyGet info.name))
      let shop_url := pyStrip (pyGet info.google_maps_url)
      (current_location_shops.all fun existing_shop =>
        let existing_name := pyLower (pyStrip (pyGet existing_shop.name))
        let existing_url := pyStrip (pyGet existing_shop.google_maps_url)
        if existing_name = shop_name then false
        else if shop_url ≠ [] ∧ existing_url ≠ [] ∧ shop_url = existing_url then false
        else true)
      &&
      (shops_data.all fun existing_shop =>
        let existing_name := pyLower (pyStrip (pyGet existing_shop.name))
        let existing_url := pyStrip (pyGet existing_shop.google_maps_url)
        let existing_location := pyGet existing_shop.search_location
        if existing_location = current_location then true
        else if shop_url ≠ [] ∧ existing_url ≠ [] ∧ shop_url = existing_url then false
        else
          let clean_name := shop_name.filter pyIsAlnum
          let clean_existing := existing_name.filter pyIsAlnum
          if clean_name ≠ [] ∧ clean_existing ≠ [] ∧ clean_name = clean_existing ∧
              clean_name.length > 3 then false
          else true)

/-- The admission loop of `extract_current_shops_with_details` of
google_maps_scraper_detailed.py (lines 843-918) over the extraction results of
the candidate links (a failed extraction is `none` and skipped, as is a
candidate the `is_new_shop` pre-check or check rejects): an admitted record is
appended to both lists before the cap is checked (append at 887-889, cap check
at 899); the round also stops after 4 admissions (907) and re-checks the cap
after each candidate (912).  Returns the final pair of the accumulated list
and the current-anchor list. -/
def process_round (target : Nat) (shops_data current_location_shops : List ShopInfo)
    (current_location : Str) (processed_count : Nat) :
    List (Option ShopInfo) → List ShopInfo × List ShopInfo
  | [] => (shops_data, current_location_shops)
  | info? :: rest =>
    match info? with
    | none =>
      process_round target shops_data current_location_shops current_location
        processed_count rest
    | some info =>
      if is_new_shop shops_data current_location_shops current_location (some info) then
        if (shops_data ++ [info]).length ≥ target then
          (shops_data ++ [info], current_location_shops ++ [info])
        else if processed_count + 1 ≥ 4 then
          (shops_data ++ [info], current_location_shops ++ [info])
        else
          process_round target (shops_data ++ [info]) (current_location_shops ++ [info])
            current_location (processed_count + 1) rest
      else
        if processed_count ≥ 4 then (shops_data, current_location_shops)
        else if shops_data.length ≥ target then (shops_data, current_location_shops)
        else
          process_round target shops_data current_location_shops current_location
            processed_count rest

/-- The noise tokens removed from the front of a candidate name by
`extract_shop_info_detailed` (line 326). -/
def prefixes_to_remove : List Str :=
  ["搜尋", "前往", "路線", "導航", "評論"].map String.toList

/-- The placeholder tokens that invalidate a candidate name (line 337). -/
def invalid_keywords : List Str :=
  ["undefined", "null", "載入中", "loading", "..."].map String.toList

/-- The noise-stripping loop of `extract_shop_info_detailed` (lines 326-329):
each token in turn is removed from the front when present, re-stripping. -/
def strip_noise (name : Str) : Str :=
  prefixes_to_remove.foldl
    (fun n p => if p.isPrefixOf n then pyStrip (n.drop p.length) else n) name

/-- The name validation of `extract_shop_info_detailed` (lines 313-341): a
candidate that strips to empty fails; after stripping and noise removal a name
shorter than 2 characters fails; a lowercased name containing a placeholder
token fails; anything else is accepted as the cleaned name. -/
def validate_name (raw : Str) : Option Str :=
  if pyStrip raw = [] then none
  else
    let name := pyStrip raw
    let name := strip_noise name
    if name.length < 2 then none
    else if invalid_keywords.any (fun k => pyIn k (pyLower name)) then none
    else some name

end Detailed

/-- A sample record: name "A Nails" with a source URL. -/
def sampleA : ShopInfo :=
  { name := some ("A Nails".toList), google_maps_url := some ("https://maps.example/a".toList) }

/-- A sample record: name "B Nails" with a distinct source URL. -/
def sampleB : ShopInfo :=
  { name := some ("B Nails".toList), google_maps_url := some ("https://maps.example/b".toList) }

/-- A sample record whose name equals "A Nails" after stripping and
case-folding, with yet another URL. -/
def sampleADup : ShopInfo :=
  { name := some (" a NAILS ".toList), google_maps_url := some ("https://maps.example/x".toList) }

/-- A sample record that shares `sampleA`'s URL but not its name. -/
def sampleUrlDup : ShopInfo :=
  { name := some ("C Nails".toList), google_maps_url := some ("https://maps.example/a".toList) }

/-- A sample record with no name field. -/
def sampleNoName : ShopInfo := { address := some ("高雄市左營區".toList) }

/-- A sample record admitted under the anchor Fengshan. -/
def annaFengshan : ShopInfo :=
  { name := some ("Anna Nails".toList), search_location := some ("Fengshan".toList) }

/-- The same shop name offered under the anchor Zuoying. -/
def annaZuoying : ShopInfo :=
  { name := some ("Anna Nails".toList), search_location := some ("Zuoying".toList) }

/-- A sample record under Fengshan whose alphanumeric-only name has length 3. -/
def shortFengshan : ShopInfo :=
  { name := some ("美甲殿".toList), search_location := some ("Fengshan".toList) }

/-- The same three-character shop name offered under Zuoying. -/
def shortZuoying : ShopInfo :=
  { name := some ("美甲殿".toList), search_location := some ("Zuoying".toList) }

end GMScraper

open GMScraper

theorem all_false_of_mem {α : Type} {p : α → Bool} {l : List α} {x : α}
    (hx : x ∈ l) (hpx : p x = false) : l.all p = false := by
  cases h : l.all p with
  | false => rfl
  | true => exact absurd (List.all_eq_true.mp h x hx) (by simp [hpx])

theorem add_shop_data_length (s : List ShopInfo) (r : ShopInfo) :
    (Fast.add_shop_data s r).1.length ≤ s.length + 1 := by
  unfold Fast.add_shop_data
  split <;> simp

/-- The fast scraper's check-then-add loop keeps the count within the cap from
any state within it, and a precision extraction round entered below the cap
stays within it: the cap invariant does hold for these two offer loops (the
violation of the invariant is specific to the detailed scraper's loop). -/
theorem offer_count_never_exceeds_cap :
    (∀ (target : Nat) (s l : List ShopInfo),
      s.length ≤ target → (Fast.run_offer_loop target s l).length ≤ target) ∧
    (∀ (target : Nat) (s : List ShopInfo) (l : List (Option ShopInfo)),
      s.length < target → (Precision.extract_round target s l).length ≤ target) := by
  constructor
  · intro target s l
    induction l generalizing s with
    | nil => intro h; simpa [Fast.run_offer_loop] using h
    | cons shop rest ih =>
      intro h
      by_cases hc : s.length ≥ target
      · simpa [Fast.run_offer_loop, hc] using h
      · rw [Fast.run_offer_loop, if_neg hc]
        refine ih _ ?_
        have := add_shop_data_length s shop
        omega
  · intro target s l
    induction l generalizing s with
    | nil => intro h; simpa [Precision.extract_round] using Nat.le_of_lt h
    | cons info? rest ih =>
      intro h
      cases info? with
      | none => rw [Precision.extract_round]; exact ih s h
      | some info =>
        rw [Precision.extract_round]
        by_cases hn : Precision.is_new_shop s (some info) = true
        · rw [if_pos hn]
          by_cases hcap : (s ++ [info]).length ≥ target
          · rw [if_pos hcap]; simp; omega
          · rw [if_neg hcap]
            refine ih _ ?_
            simp at hcap ⊢
            omega
        · simp only [hn, Bool.false_eq_true, if_false]
          exact ih s h

theorem offer_cap_witness :
    (Fast.run_offer_loop 2 [] [sampleA, sampleB, sampleUrlDup]).length ≤ 2 ∧
    (Precision.extract_round 1 [] [some sampleA, some sampleB]).length ≤ 1 :=
  ⟨offer_count_never_exceeds_cap.1 2 [] _ (by decide),
   offer_count_never_exceeds_cap.2 1 [] _ (by decide)⟩

/-- Claim C1 (code bug): the detailed scraper's admission loop appends before
its cap check, so once the loop is entered with the count already at the cap —
reachable, since `scroll_and_extract_with_details` invokes it a second time
per scroll iteration (line 777) with the cap checked only afterwards (line
782), and the orchestrator guards with a hard-coded 600 against
`target_shops = 2000` — one more valid new record pushes `len(shops_data)`
past `target_shops`: with cap 1 and one accumulated record, offering a new
record yields 2 accumulated records. -/
theorem detailed_loop_exceeds_cap :
    Detailed.is_new_shop [sampleA] [] ("Fengshan".toList) (some sampleB) = true ∧
    1 < ((Detailed.process_round 1 [sampleA] [] ("Fengshan".toList) 0 [some sampleB]).1).length := by
  decide

/-- Claim C10: the region filter treats a missing or sentinel address as
in-region — the empty address and both sentinel strings pass
`is_kaohsiung_address`. -/
theorem missing_address_passes_region_filter :
    Precision.is_kaohsiung_address [] = true ∧
    Precision.is_kaohsiung_address ("地址未提供".toList) = true ∧
    Precision.is_kaohsiung_address ("地址獲取失敗".toList) = true := by decide

/-- Claim C3: two records whose stripped case-folded names are identical are
never both admitted in the same dedup scope — with the first already
accumulated, the second is rejected by the precision check, the turbo check,
and the fast scraper's `add_shop_data` (which leaves the state unchanged). -/
theorem duplicate_name_rejected (l : List ShopInfo) (r₁ r₂ : ShopInfo)
    (hmem : r₁ ∈ l)
    (h₁ : pyLower (pyStrip (pyGet r₁.name)) = pyLower (pyStrip (pyGet r₂.name)))
    (h₂ : pyStrip (pyLower (pyGet r₁.name)) = pyStrip (pyLower (pyGet r₂.name))) :
    Precision.is_new_shop l (some r₂) = false ∧
    Turbo.is_new_shop_fast l (some r₂) = false ∧
    Fast.add_shop_data l r₂ = (l, false) := by
  refine ⟨?_, ?_, ?_⟩
  · cases hall : Precision.is_new_shop l (some r₂) with
    | false => rfl
    | true =>
      exfalso
      by_cases hname : pyGet r₂.name = []
      · simp [Precision.is_new_shop, hname] at hall
      · simp only [Precision.is_new_shop, if_neg hname] at hall
        have := List.all_eq_true.mp hall r₁ hmem
        simp [h₁] at this
  · cases hall : Turbo.is_new_shop_fast l (some r₂) with
    | false => rfl
    | true =>
      exfalso
      by_cases hname : pyGet r₂.name = []
      · simp [Turbo.is_new_shop_fast, hname] at hall
      · simp only [Turbo.is_new_shop_fast, if_neg hname] at hall
        have := List.all_eq_true.mp hall r₁ hmem
        simp [h₁] at this
  · unfold Fast.add_shop_data
    rw [if_pos (List.any_eq_true.mpr ⟨r₁, hmem, by simp [h₂]⟩)]

theorem duplicate_name_witness :
    Precision.is_new_shop [sampleA] (some sampleADup) = false ∧
    Turbo.is_new_shop_fast [sampleA] (some sampleADup) = false ∧
    Fast.add_shop_data [sampleA] sampleADup = ([sampleA], false) :=
  duplicate_name_rejected [sampleA] sampleA sampleADup (by decide) (by decide) (by decide)

/-- Claim C4: under the name-and-URL policy, two records carrying the same
non-empty stripped source URL are never both admitted, whatever their names —
with the first already accumulated, the second is rejected by the precision
and turbo checks. -/
theorem duplicate_url_rejected (l : List ShopInfo) (r₁ r₂ : ShopInfo)
    (hmem : r₁ ∈ l)
    (hne : pyStrip (pyGet r₂.google_maps_url) ≠ [])
    (hu : pyStrip (pyGet r₁.google_maps_url) = pyStrip (pyGet r₂.google_maps_url)) :
    Precision.is_new_shop l (some r₂) = false ∧
    Turbo.is_new_shop_fast l (some r₂) = false := by
  have hne' : pyStrip (pyGet r₁.google_maps_url) ≠ [] := by rw [hu]; exact hne
  refine ⟨?_, ?_⟩
  · cases hall : Precision.is_new_shop l (some r₂) with
    | false => rfl
    | true =>
      exfalso
      by_cases hname : pyGet r₂.name = []
      · simp [Precision.is_new_shop, hname] at hall
      · simp only [Precision.is_new_shop, if_neg hname] at hall
        have := List.all_eq_true.mp hall r₁ hmem
        by_cases heqn : pyLower (pyStrip (pyGet r₁.name)) = pyLower (pyStrip (pyGet r₂.name))
        · simp [heqn] at this
        · simp [heqn, hne, hne', hu.symm] at this
  · cases hall : Turbo.is_new_shop_fast l (some r₂) with
    | false => rfl
    | true =>
      exfalso
      by_cases hname : pyGet r₂.name = []
      · simp [Turbo.is_new_shop_fast, hname] at hall
      · simp only [Turbo.is_new_shop_fast, if_neg hname] at hall
        have := List.all_eq_true.mp hall r₁ hmem
        simp [hne, hne', hu.symm] at this

theorem duplicate_url_witness :
    Precision.is_new_shop [sampleA] (some sampleUrlDup) = false ∧
    Turbo.is_new_shop_fast [sampleA] (some sampleUrlDup) = false :=
  duplicate_url_rejected [sampleA] sampleA sampleUrlDup (by decide) (by decide) (by decide)

/-- Claim C9: a falsy record, or a record whose name field is missing or
empty, is classified as not-new by every newness check, so it is discarded
through the rejection path instead of being admitted. -/
theorem nameless_record_not_new (l cur : List ShopInfo) (loc : Str) (r : ShopInfo) :
    Precision.is_new_shop l none = false ∧
    Turbo.is_new_shop_fast l none = false ∧
    Detailed.is_new_shop l cur loc none = false ∧
    (pyGet r.name = [] →
      Precision.is_new_shop l (some r) = false ∧
      Turbo.is_new_shop_fast l (some r) = false ∧
      Detailed.is_new_shop l cur loc (some r) = false) := by
  refine ⟨rfl, rfl, rfl, fun h => ⟨?_, ?_, ?_⟩⟩
  · simp [Precision.is_new_shop, h]
  · simp [Turbo.is_new_shop_fast, h]
  · simp [Detailed.is_new_shop, h]

theorem nameless_record_witness :
    Precision.is_new_shop [sampleA] (some sampleNoName) = false ∧
    Turbo.is_new_shop_fast [sampleA] (some sampleNoName) = false ∧
    Detailed.is_new_shop [sampleA] [] ("Fengshan".toList) (some sampleNoName) = false :=
  (nameless_record_not_new [sampleA] [] ("Fengshan".toList) sampleNoName).2.2.2 (by decide)

/-- Counterexample to claim C5 as stated: under the per-anchor check, the name
"Anna Nails" admitted under anchor Fengshan causes the same name offered under
the distinct anchor Zuoying to be rejected, because the alphanumeric-only
names are equal and longer than 3 characters. -/
theorem per_anchor_name_match_counterexample :
    pyGet annaFengshan.name = pyGet annaZuoying.name ∧
    pyGet annaFengshan.search_location ≠ "Zuoying".toList ∧
    Detailed.is_new_shop [annaFengshan] [] ("Zuoying".toList) (some annaZuoying) = false := by
  decide

/-- Claim C5 (amended): with per-anchor scope, a record admitted under one
anchor does not block the same name under a different anchor — both are
admitted — provided the two records do not share a non-empty stripped URL and
the alphanumeric-only form of the case-folded name has length at most 3; a
longer cleaned name triggers the cross-anchor similarity rejection. -/
theorem per_anchor_same_name_admitted (r₁ r₂ : ShopInfo) (anchor₂ : Str)
    (hname : pyGet r₂.name ≠ [])
    (hsame : pyGet r₁.name = pyGet r₂.name)
    (hanch : pyGet r₁.search_location ≠ anchor₂)
    (hurl : ¬ (pyStrip (pyGet r₂.google_maps_url) ≠ [] ∧
        pyStrip (pyGet r₁.google_maps_url) ≠ [] ∧
        pyStrip (pyGet r₂.google_maps_url) = pyStrip (pyGet r₁.google_maps_url)))
    (hclean : ((pyLower (pyStrip (pyGet r₂.name))).filter Detailed.pyIsAlnum).length ≤ 3) :
    Detailed.is_new_shop [] [] (pyGet r₁.search_location) (some r₁) = true ∧
    Detailed.is_new_shop [r₁] [] anchor₂ (some r₂) = true := by
  have hname₁ : pyGet r₁.name ≠ [] := by rw [hsame]; exact hname
  constructor
  · simp [Detailed.is_new_shop, hname₁]
  · have hlen : ¬ (((pyLower (pyStrip (pyGet r₂.name))).filter Detailed.pyIsAlnum).length > 3) := by
      omega
    simp [Detailed.is_new_shop, hname, hsame, hanch, hurl, hlen]
    tauto

theorem per_anchor_witness :
    Detailed.is_new_shop [] [] (pyGet shortFengshan.search_location) (some shortFengshan) = true ∧
    Detailed.is_new_shop [shortFengshan] [] ("Zuoying".toList) (some shortZuoying) = true :=
  per_anchor_same_name_admitted shortFengshan shortZuoying ("Zuoying".toList)
    (by decide) (by decide) (by decide) (by decide) (by decide)

/-- Counterexample to claim C6 as stated: the two-character name 路線 has
trimmed length 2 and contains no placeholder token, yet validation rejects it,
because 路線 is one of the noise tokens stripped from the front of a name. -/
theorem validate_name_counterexample :
    (pyStrip ("路線".toList)).length = 2 ∧
    (∀ k ∈ Detailed.invalid_keywords, pyIn k (pyLower ("路線".toList)) = false) ∧
    Detailed.validate_name ("路線".toList) = none := by decide

/-- Claim C6 (amended): name validation accepts exactly the names whose length
after trimming and noise-token stripping (搜尋, 前往, 路線, 導航, 評論) is at
least 2 and whose case-folded form does not contain a placeholder token; in
particular the empty name is rejected, "ab" is admitted, and names containing
"undefined", "loading" or "..." are rejected. -/
theorem validate_name_characterization :
    (∀ raw : Str,
      (Detailed.validate_name raw).isSome = true ↔
        (pyStrip raw ≠ [] ∧
          2 ≤ (Detailed.strip_noise (pyStrip raw)).length ∧
          ∀ k ∈ Detailed.invalid_keywords,
            pyIn k (pyLower (Detailed.strip_noise (pyStrip raw))) = false)) ∧
    Detailed.validate_name [] = none ∧
    Detailed.validate_name ("ab".toList) = some ("ab".toList) ∧
    Detailed.validate_name ("undefined".toList) = none ∧
    Detailed.validate_name ("loading".toList) = none ∧
    Detailed.validate_name ("...".toList) = none := by
  refine ⟨?_, by decide, by decide, by decide, by decide, by decide⟩
  intro raw
  by_cases h0 : pyStrip raw = []
  · simp [Detailed.validate_name, h0]
  · by_cases h1 : (Detailed.strip_noise (pyStrip raw)).length < 2
    · simp only [Detailed.validate_name, if_neg h0, if_pos h1]
      simp
      omega
    · by_cases h2 : Detailed.invalid_keywords.any
          (fun k => pyIn k (pyLower (Detailed.strip_noise (pyStrip raw)))) = true
      · simp only [Detailed.validate_name, if_neg h0, if_neg h1, if_pos h2]
        simp only [List.any_eq_true] at h2
        obtain ⟨k, hk, hin⟩ := h2
        simp
        intro _ _
        exact ⟨k, hk, hin⟩
      · simp only [Detailed.validate_name, if_neg h0, if_neg h1, if_neg h2]
        simp only [List.any_eq_true, not_exists] at h2
        push_neg at h2
        simp only [Option.isSome_some, true_iff]
        refine ⟨h0, by omega, fun k hk => ?_⟩
        have := h2 k hk
        simp at this
        exact this

theorem validate_name_witness :
    (Detailed.validate_name ("ab".toList)).isSome = true :=
  (validate_name_characterization.1 ("ab".toList)).mpr (by decide)

/-- Counterexample to claim C7 as stated: the candidate "123456789012"
contains 12 digits, at least the claimed 8, yet the loose check rejects it and
the extraction decision therefore discards it (the digit count exceeds 11). -/
theorem phone_counterexample :
    8 ≤ (("123456789012".toList).filter Char.isDigit).length ∧
    Precision.is_phone_like ("123456789012".toList) = false ∧
    Precision.phone_candidate_decision (fun _ => true) ("123456789012".toList) = none := by
  decide

/-- Claim C7 (amended): the loose digit-count heuristic is the final
acceptance gate of phone extraction — the strict pattern validator passed to
the candidate decision never affects its outcome — and the loose check accepts
exactly the candidates with 8 to 11 digits after stripping separators whose
digits start with 0 or which consist only of phone characters. -/
theorem phone_acceptance_characterization :
    (∀ (v₁ v₂ : Str → Bool) (raw : Str),
      Precision.phone_candidate_decision v₁ raw = Precision.phone_candidate_decision v₂ raw) ∧
    (∀ t : Str,
      Precision.is_phone_like t = true ↔
        (8 ≤ (t.filter Char.isDigit).length ∧ (t.filter Char.isDigit).length ≤ 11 ∧
          ((t.filter Char.isDigit).head? = some '0' ∨
            t.all (fun c => Precision.phone_chars.contains c) = true))) := by
  constructor
  · intro v₁ v₂ raw
    simp [Precision.phone_candidate_decision]
  · intro t
    have hle := List.length_filter_le Char.isDigit t
    unfold Precision.is_phone_like
    by_cases h0 : t = [] ∨ t.length < 8
    · rw [if_pos h0]
      simp only [false_iff, Bool.false_eq_true]
      rintro ⟨h8, -, -⟩
      rcases h0 with h0 | h0
      · subst h0; simp at h8
      · omega
    · rw [if_neg h0]
      by_cases h1 : (t.filter Char.isDigit).length < 8 ∨ (t.filter Char.isDigit).length > 11
      · rw [if_pos h1]
        simp only [false_iff, Bool.false_eq_true]
        rintro ⟨h8, h11, -⟩
        omega
      · rw [if_neg h1]
        push_neg at h1
        by_cases h2 : (t.filter Char.isDigit).head? = some '0'
        · rw [if_pos h2]
          simp only [true_iff]
          exact ⟨by omega, by omega, Or.inl h2⟩
        · rw [if_neg h2]
          by_cases h3 : t.all (fun c => Precision.phone_chars.contains c) = true
          · rw [if_pos h3]
            simp only [true_iff]
            exact ⟨by omega, by omega, Or.inr h3⟩
          · rw [if_neg h3]
            simp only [false_iff, Bool.false_eq_true]
            rintro ⟨-, -, h | h⟩
            · exact h2 h
            · exact h3 h

theorem phone_gate_witness :
    Precision.is_phone_like ("07-1234567".toList) = true :=
  (phone_acceptance_characterization.2 ("07-1234567".toList)).mpr (by decide)

theorem admissible_pairwise_names {l : List ShopInfo} (h : Precision.Admissible l) :
    l.Pairwise fun a b => pyLower (pyStrip (pyGet a.name)) ≠ pyLower (pyStrip (pyGet b.name)) := by
  induction h with
  | nil => exact List.Pairwise.nil
  | snoc hl hnew ih =>
    rename_i l' r
    rw [List.pairwise_append]
    refine ⟨ih, List.pairwise_singleton _ _, ?_⟩
    intro a ha b hb
    rw [List.mem_singleton] at hb
    subst hb
    by_cases hname : pyGet b.name = []
    · simp [Precision.is_new_shop, hname] at hnew
    · simp only [Precision.is_new_shop, if_neg hname] at hnew
      have hpa := List.all_eq_true.mp hnew a ha
      intro heq
      simp [heq] at hpa

theorem unique_pass_of_pairwise {l : List ShopInfo} {seen : List (Str × Str)}
    (hp : l.Pairwise fun a b => Precision.save_key a ≠ Precision.save_key b)
    (hs : ∀ r ∈ l, Precision.save_key r ∉ seen) :
    Precision.unique_pass l seen = l := by
  induction l generalizing seen with
  | nil => rfl
  | cons shop rest ih =>
    rw [Precision.unique_pass, if_neg (hs shop (List.mem_cons_self shop rest))]
    rw [List.pairwise_cons] at hp
    congr 1
    refine ih hp.2 fun r hr => ?_
    rw [List.mem_cons, not_or]
    exact ⟨fun hkey => hp.1 r hr hkey.symm, hs r (List.mem_cons_of_mem shop hr)⟩

/-- Claim C8: the sequence handed to the Export Sink equals the admitted
records in admission order — for every list accumulated through the
`is_new_shop` admission gate, the uniqueness pass of `save_to_excel` neither
reorders, drops nor invents entries. -/
theorem export_sequence_is_admitted_sequence {l : List ShopInfo}
    (h : Precision.Admissible l) : Precision.unique_shops l = l := by
  refine unique_pass_of_pairwise ?_ (by simp)
  refine (admissible_pairwise_names h).imp ?_
  intro a b hne hkey
  refine absurd ?_ hne
  have hfst : pyGet a.name = pyGet b.name := congrArg Prod.fst hkey
  rw [hfst]

theorem export_sequence_witness :
    Precision.unique_shops [sampleA, sampleB] = [sampleA, sampleB] :=
  export_sequence_is_admitted_sequence
    (Precision.Admissible.snoc
      (Precision.Admissible.snoc Precision.Admissible.nil (by decide)) (by decide))

